import Mathlib

/-!
Shallow embedding of the insights-operator-web-ui service (`webui.go` and the
`types` package) in Lean 4.

The program is a thin HTTP front end: each handler reads query/form data,
optionally performs one outbound HTTP call against a configured controller
service, and then renders a template or issues a redirect.  We embed:

* the four entity record types together with their JSON encoding/decoding
  (mirroring `encoding/json` struct marshalling with the declared tags);
* the gateway helpers `performReadRequest` / `performWriteRequest`;
* the HTTP handlers, modelled as pure functions from an environment
  (controller URL, backend behaviour, filesystem, templates, JSON parser)
  and an inbound request to the ordered list of observable events they
  produce (outbound backend calls, header writes, status/body writes,
  redirects).

The outside world (the network, the filesystem, the HTML template files and
the standard library JSON parser) is passed in as part of the environment;
everything that is code of this repository is translated directly.
-/

namespace WebUI

/-! ### JSON values

`encoding/json` is modelled at the level of parsed JSON values: an
environment function stands for the textual parser, while marshalling and
unmarshalling of the entity structs (the code of this repository fixed by
the struct tags) are translated below. -/

inductive Json where
  | null
  | bool (b : Bool)
  | num (n : Int)
  | str (s : String)
  | arr (elems : List Json)
  | obj (fields : List (String × Json))
deriving Inhabited

/-- First binding of a key in a JSON object (the encoders below never emit
duplicate keys). -/
def jsonLookup : List (String × Json) → String → Option Json
  | [], _ => none
  | (k, v) :: rest, key => if k = key then some v else jsonLookup rest key

/-- Unmarshal a JSON field into a Go `string` struct field: an absent field
or `null` keeps the zero value `""`, a JSON string is taken verbatim, and
any other JSON type is a decode error. -/
def getStringField (fields : List (String × Json)) (key : String) : Option String :=
  match jsonLookup fields key with
  | none => some ""
  | some Json.null => some ""
  | some (Json.str s) => some s
  | some _ => none

/-- Unmarshal a JSON field into a Go `int` struct field: an absent field or
`null` keeps the zero value `0`, a JSON number is taken verbatim, and any
other JSON type is a decode error. -/
def getIntField (fields : List (String × Json)) (key : String) : Option Int :=
  match jsonLookup fields key with
  | none => some 0
  | some Json.null => some 0
  | some (Json.num n) => some n
  | some _ => none

/-! ### Entity types (`types` package) -/

/-- `types.Cluster`. -/
structure Cluster where
  ID : Int
  Name : String
deriving DecidableEq

/-- `types.ConfigurationProfile`. -/
structure ConfigurationProfile where
  ID : Int
  Configuration : String
  ChangedAt : String
  ChangedBy : String
  Description : String
deriving DecidableEq

/-- `types.ClusterConfiguration` (fields and tags as in the historical
`main`-package variant of the source, which agrees with the spec's table;
`Active` is a string there). -/
structure ClusterConfiguration where
  ID : Int
  Cluster : String
  Configuration : String
  ChangedAt : String
  ChangedBy : String
  Active : String
  Reason : String
deriving DecidableEq

/-- `types.Trigger` (the Go field `Type` is called `TriggerType` here since
`Type` is a Lean keyword). -/
structure Trigger where
  ID : Int
  TriggerType : String
  Cluster : String
  Reason : String
  Link : String
  TriggeredAt : String
  TriggeredBy : String
  AckedAt : String
  Parameters : String
  Active : Int
deriving DecidableEq

/-! ### JSON marshalling of the entity types (struct tags) -/

def encodeCluster (c : Cluster) : Json :=
  Json.obj [("id", Json.num c.ID), ("name", Json.str c.Name)]

def decodeCluster : Json → Option Cluster
  | Json.obj fields => do
      let id ← getIntField fields "id"
      let name ← getStringField fields "name"
      some { ID := id, Name := name }
  | _ => none

def encodeConfigurationProfile (p : ConfigurationProfile) : Json :=
  Json.obj [("id", Json.num p.ID), ("configuration", Json.str p.Configuration),
    ("changed_at", Json.str p.ChangedAt), ("changed_by", Json.str p.ChangedBy),
    ("description", Json.str p.Description)]

def decodeConfigurationProfile : Json → Option ConfigurationProfile
  | Json.obj fields => do
      let id ← getIntField fields "id"
      let configuration ← getStringField fields "configuration"
      let changedAt ← getStringField fields "changed_at"
      let changedBy ← getStringField fields "changed_by"
      let description ← getStringField fields "description"
      some { ID := id, Configuration := configuration, ChangedAt := changedAt,
             ChangedBy := changedBy, Description := description }
  | _ => none

def encodeClusterConfiguration (c : ClusterConfiguration) : Json :=
  Json.obj [("id", Json.num c.ID), ("cluster", Json.str c.Cluster),
    ("configuration", Json.str c.Configuration), ("changed_at", Json.str c.ChangedAt),
    ("changed_by", Json.str c.ChangedBy), ("active", Json.str c.Active),
    ("reason", Json.str c.Reason)]

def decodeClusterConfiguration : Json → Option ClusterConfiguration
  | Json.obj fields => do
      let id ← getIntField fields "id"
      let cluster ← getStringField fields "cluster"
      let configuration ← getStringField fields "configuration"
      let changedAt ← getStringField fields "changed_at"
      let changedBy ← getStringField fields "changed_by"
      let active ← getStringField fields "active"
      let reason ← getStringField fields "reason"
      some { ID := id, Cluster := cluster, Configuration := configuration,
             ChangedAt := changedAt, ChangedBy := changedBy, Active := active,
             Reason := reason }
  | _ => none

def encodeTrigger (t : Trigger) : Json :=
  Json.obj [("id", Json.num t.ID), ("type", Json.str t.TriggerType),
    ("cluster", Json.str t.Cluster), ("reason", Json.str t.Reason),
    ("link", Json.str t.Link), ("triggered_at", Json.str t.TriggeredAt),
    ("triggered_by", Json.str t.TriggeredBy), ("acked_at", Json.str t.AckedAt),
    ("parameters", Json.str t.Parameters), ("active", Json.num t.Active)]

def decodeTrigger : Json → Option Trigger
  | Json.obj fields => do
      let id ← getIntField fields "id"
      let type ← getStringField fields "type"
      let cluster ← getStringField fields "cluster"
      let reason ← getStringField fields "reason"
      let link ← getStringField fields "link"
      let triggeredAt ← getStringField fields "triggered_at"
      let triggeredBy ← getStringField fields "triggered_by"
      let ackedAt ← getStringField fields "acked_at"
      let parameters ← getStringField fields "parameters"
      let active ← getIntField fields "active"
      some { ID := id, TriggerType := type, Cluster := cluster, Reason := reason,
             Link := link, TriggeredAt := triggeredAt, TriggeredBy := triggeredBy,
             AckedAt := ackedAt, Parameters := parameters, Active := active }
  | _ => none

/-- Unmarshal into a Go slice: the JSON value must be an array whose
elements all decode. -/
def decodeClusterConfigurationList : Json → Option (List ClusterConfiguration)
  | Json.arr elems => elems.mapM decodeClusterConfiguration
  | _ => none

def decodeTriggerList : Json → Option (List Trigger)
  | Json.arr elems => elems.mapM decodeTrigger
  | _ => none

/-! ### `net/url` escaping

`url.QueryEscape` and `url.PathEscape` from the Go standard library, as the
handlers call them.  Go escapes byte-by-byte; the model works per character,
which coincides with Go on single-byte (ASCII) code points — all the
escaping decisions below are about ASCII characters. -/

def upperHexDigit (n : Nat) : Char :=
  if n < 10 then Char.ofNat ('0'.toNat + n) else Char.ofNat ('A'.toNat + (n - 10))

def percentEncode (c : Char) : List Char :=
  ['%', upperHexDigit (c.toNat / 16 % 16), upperHexDigit (c.toNat % 16)]

def isAlphaNum (c : Char) : Bool :=
  ('a' ≤ c && c ≤ 'z') || ('A' ≤ c && c ≤ 'Z') || ('0' ≤ c && c ≤ '9')

/-- `shouldEscape(c, encodeQueryComponent)`: everything but the RFC 3986
unreserved characters is escaped in a query component. -/
def shouldEscapeQueryComponent (c : Char) : Bool :=
  if isAlphaNum c then false
  else if c = '-' || c = '_' || c = '.' || c = '~' then false
  else true

/-- `shouldEscape(c, encodePathSegment)`: unreserved characters are kept,
and of the RFC 3986 reserved set only `/`, `;`, `,` and `?` are escaped
inside a path segment. -/
def shouldEscapePathSegment (c : Char) : Bool :=
  if isAlphaNum c then false
  else if c = '-' || c = '_' || c = '.' || c = '~' then false
  else if c = '$' || c = '&' || c = '+' || c = ',' || c = '/' || c = ':' ||
          c = ';' || c = '=' || c = '?' || c = '@' then
    c = '/' || c = ';' || c = ',' || c = '?'
  else true

/-- `url.QueryEscape`: a space becomes `+`, other escapable characters
become `%XX` with uppercase hex. -/
def queryEscape (s : String) : String :=
  String.mk (s.toList.flatMap fun c =>
    if c = ' ' then ['+']
    else if shouldEscapeQueryComponent c then percentEncode c
    else [c])

/-- `url.PathEscape`. -/
def pathEscape (s : String) : String :=
  String.mk (s.toList.flatMap fun c =>
    if shouldEscapePathSegment c then percentEncode c else [c])

/-! ### `strconv.Atoi` -/

def digitsToNat (acc : Nat) : List Char → Option Nat
  | [] => some acc
  | c :: rest =>
      if '0' ≤ c ∧ c ≤ '9' then digitsToNat (acc * 10 + (c.toNat - '0'.toNat)) rest
      else none

/-- `strconv.Atoi`: an optional sign followed by at least one decimal
digit; anything else is an error.  (The 64-bit overflow error of the real
function is not modelled; the handlers only compare parsed values.) -/
def atoi (s : String) : Option Int :=
  match s.toList with
  | [] => none
  | '+' :: rest =>
      match rest with
      | [] => none
      | _ => (digitsToNat 0 rest).map Int.ofNat
  | '-' :: rest =>
      match rest with
      | [] => none
      | _ => (digitsToNat 0 rest).map fun n => -(Int.ofNat n)
  | l => (digitsToNat 0 l).map Int.ofNat

/-! ### The backend gateway (`performReadRequest` / `performWriteRequest`)

An outbound HTTP exchange either fails at the transport level
(`HttpResult.failure`, i.e. `http.Get` / `client.Do` returned an error) or
yields a response with a status code and a body.  The behaviour of the
controller service is a function from the outbound request to such a
result. -/

structure OutboundRequest where
  url : String
  method : String
  /-- The request payload; `none` models a `nil` body. -/
  body : Option String
deriving DecidableEq

inductive HttpResult where
  | failure
  | response (statusCode : Nat) (body : String)
deriving DecidableEq

inductive GatewayError where
  | transportError
  | unexpectedStatus (got : Nat)
  | decodeError
deriving DecidableEq

/-- `performReadRequest(url)`: GET the url; a transport error is reported
as a communication error, a status other than 200 as an unexpected-status
error, and on 200 the raw response body is returned unmodified. -/
def performReadRequest (backend : OutboundRequest → HttpResult) (url : String) :
    Except GatewayError String :=
  match backend { url := url, method := "GET", body := none } with
  | HttpResult.failure => Except.error GatewayError.transportError
  | HttpResult.response statusCode body =>
      if statusCode ≠ 200 then Except.error (GatewayError.unexpectedStatus statusCode)
      else Except.ok body

/-- `performWriteRequest(url, method, payload)`: perform the request; a
transport error is reported as a communication error, and any status other
than 200, 201 or 202 as an unexpected-status error.  No response body is
read on success. -/
def performWriteRequest (backend : OutboundRequest → HttpResult) (url : String)
    (method : String) (payload : Option String) : Except GatewayError Unit :=
  match backend { url := url, method := method, body := payload } with
  | HttpResult.failure => Except.error GatewayError.transportError
  | HttpResult.response statusCode _ =>
      if statusCode ≠ 200 ∧ statusCode ≠ 201 ∧ statusCode ≠ 202 then
        Except.error (GatewayError.unexpectedStatus statusCode)
      else Except.ok ()

/-! ### Handlers as event traces

A handler invocation is modelled as the ordered list of its observable
actions: outbound backend calls, `writer.Header().Set`, `WriteHeader`,
body writes via `fmt.Fprint` / template execution, and `http.Redirect`.
Logging to stdout (`log.Println`, `fmt.Println`) is not an HTTP-visible
action and is not recorded. -/

inductive Event where
  | backendCall (request : OutboundRequest)
  | setHeader (key value : String)
  | writeStatus (code : Nat)
  | writeBody (text : String)
  | redirect (target : String) (code : Nat)
deriving DecidableEq

/-- The data bound into a template's context by one of the handlers. -/
inductive TemplateData where
  | clusters (items : List Cluster)
  | profiles (items : List ConfigurationProfile)
  | configurations (items : List ClusterConfiguration)
  | triggers (items : List Trigger)
  | profile (value : ConfigurationProfile)
  | cluster (value : Cluster)

/-- Everything outside this repository that a handler interacts with:
the configured controller URL, the controller service itself, the local
filesystem, the parsed HTML templates (`template.ParseFiles` either fails
or yields a rendering function), and the textual JSON parser of
`encoding/json`. -/
structure Env where
  controllerURL : String
  backend : OutboundRequest → HttpResult
  files : String → Option String
  templates : String → Option (TemplateData → String)
  parseJson : String → Option Json

/-- An inbound HTTP request: `query key` is the first value of a query
parameter when the key is present (`request.URL.Query()[key]` plus the
`[0]` indexing the handlers do), and `form key` is `request.Form.Get(key)`,
which returns `""` for an absent field. -/
structure Request where
  query : String → Option String
  form : String → String

/-- `APIPrefix` from the source. -/
def APIPrefix : String := "/api/v1/"

/-- A `performReadRequest` call made by a handler: the outbound GET is
recorded as an event next to its result. -/
def tracedReadRequest (env : Env) (url : String) :
    Except GatewayError String × List Event :=
  (performReadRequest env.backend url,
   [Event.backendCall { url := url, method := "GET", body := none }])

/-- A `performWriteRequest` call made by a handler. -/
def tracedWriteRequest (env : Env) (url : String) (method : String)
    (payload : Option String) : Except GatewayError Unit × List Event :=
  (performWriteRequest env.backend url method payload,
   [Event.backendCall { url := url, method := method, body := payload }])

/-- `json.Unmarshal` into `[]types.ClusterConfiguration`: parse the text
(library parser from the environment), then map it onto the record type. -/
def unmarshalClusterConfigurationList (env : Env) (body : String) :
    Except GatewayError (List ClusterConfiguration) :=
  match env.parseJson body with
  | none => Except.error GatewayError.decodeError
  | some j =>
      match decodeClusterConfigurationList j with
      | none => Except.error GatewayError.decodeError
      | some items => Except.ok items

/-- `json.Unmarshal` into `[]types.Trigger`. -/
def unmarshalTriggerList (env : Env) (body : String) :
    Except GatewayError (List Trigger) :=
  match env.parseJson body with
  | none => Except.error GatewayError.decodeError
  | some j =>
      match decodeTriggerList j with
      | none => Except.error GatewayError.decodeError
      | some items => Except.ok items

/-- `json.Unmarshal` into `types.ConfigurationProfile`. -/
def unmarshalConfigurationProfile (env : Env) (body : String) :
    Except GatewayError ConfigurationProfile :=
  match env.parseJson body with
  | none => Except.error GatewayError.decodeError
  | some j =>
      match decodeConfigurationProfile j with
      | none => Except.error GatewayError.decodeError
      | some profile => Except.ok profile

/-- `readListOfConfigurations`. -/
def readListOfConfigurations (env : Env) (controllerURL apiPrefix : String) :
    Except GatewayError (List ClusterConfiguration) × List Event :=
  let url := controllerURL ++ apiPrefix ++ "client/configuration"
  let (body, trace) := tracedReadRequest env url
  match body with
  | Except.error e => (Except.error e, trace)
  | Except.ok body => (unmarshalClusterConfigurationList env body, trace)

/-- `readListOfTriggers` (triggers of one cluster; note the cluster name is
concatenated into the path unescaped, as in the source). -/
def readListOfTriggers (env : Env) (controllerURL apiPrefix clusterName : String) :
    Except GatewayError (List Trigger) × List Event :=
  let url := controllerURL ++ apiPrefix ++ "client/cluster/" ++ clusterName ++ "/trigger"
  let (body, trace) := tracedReadRequest env url
  match body with
  | Except.error e => (Except.error e, trace)
  | Except.ok body => (unmarshalTriggerList env body, trace)

/-- `readListOfAllTriggers`. -/
def readListOfAllTriggers (env : Env) (controllerURL apiPrefix : String) :
    Except GatewayError (List Trigger) × List Event :=
  let url := controllerURL ++ apiPrefix ++ "client/trigger"
  let (body, trace) := tracedReadRequest env url
  match body with
  | Except.error e => (Except.error e, trace)
  | Except.ok body => (unmarshalTriggerList env body, trace)

/-- `readConfigurationProfile`. -/
def readConfigurationProfile (env : Env) (controllerURL apiPrefix profileID : String) :
    Except GatewayError ConfigurationProfile × List Event :=
  let url := controllerURL ++ apiPrefix ++ "client/profile/" ++ profileID
  let (body, trace) := tracedReadRequest env url
  match body with
  | Except.error e => (Except.error e, trace)
  | Except.ok body => (unmarshalConfigurationProfile env body, trace)

/-! ### The handlers -/

/-- `time.Unix(0, 0).Format(time.RFC1123)` — the Unix epoch rendered in
RFC 1123 form (rendered in UTC; the real value depends on the process's
local time zone, which no claim distinguishes). -/
def epoch : String := "Thu, 01 Jan 1970 00:00:00 UTC"

/-- The `noCacheHeaders` map, in declaration order (Go map iteration order
is unspecified; the four keys are distinct, so the final header state does
not depend on the order). -/
def noCacheHeaders : List (String × String) :=
  [("Expires", epoch),
   ("Cache-Control", "no-cache, private, max-age=0"),
   ("Pragma", "no-cache"),
   ("X-Accel-Expires", "0")]

/-- The `writer.Header().Set` loop over `noCacheHeaders`. -/
def noCacheEvents : List Event :=
  noCacheHeaders.map fun kv => Event.setHeader kv.1 kv.2

/-- Template render step shared by the list handlers: `ParseFiles` failure
answers 404 `"Not found!"`, success executes the template into the body. -/
def renderTemplate (env : Env) (filename : String) (dynData : TemplateData) :
    List Event :=
  match env.templates filename with
  | none => [Event.writeStatus 404, Event.writeBody "Not found!"]
  | some render => [Event.writeBody (render dynData)]

/-- `listConfigurations`. -/
def listConfigurations (env : Env) (_request : Request) : List Event :=
  let (configurations, trace) := readListOfConfigurations env env.controllerURL APIPrefix
  let trace := trace ++ noCacheEvents
  match configurations with
  | Except.error _ => trace
  | Except.ok items =>
      trace ++ renderTemplate env "html/list_configurations.html"
        (TemplateData.configurations items)

/-- `listTriggers` (registered for both `/list-triggers` and
`/list-all-triggers`). -/
def listTriggers (env : Env) (request : Request) : List Event :=
  let (triggers, trace) :=
    match request.query "clusterName" with
    | none => readListOfAllTriggers env env.controllerURL APIPrefix
    | some clusterName => readListOfTriggers env env.controllerURL APIPrefix clusterName
  let trace := trace ++ noCacheEvents
  match triggers with
  | Except.error _ => trace
  | Except.ok items =>
      trace ++ renderTemplate env "html/list_triggers.html" (TemplateData.triggers items)

/-- `describeConfiguration`. -/
def describeConfiguration (env : Env) (request : Request) : List Event :=
  match request.query "configuration" with
  | none => [Event.writeStatus 404, Event.writeBody "Not found!"]
  | some configID =>
      let (configuration, trace) :=
        readConfigurationProfile env env.controllerURL APIPrefix configID
      match configuration with
      | Except.error _ => trace ++ [Event.writeStatus 404, Event.writeBody "Not found!"]
      | Except.ok profile =>
          match env.templates "html/describe_configuration.html" with
          | none => trace ++ [Event.writeStatus 404, Event.writeBody "Error parsing template"]
          | some render => trace ++ [Event.writeBody (render (TemplateData.profile profile))]

/-- `storeProfile`. -/
def storeProfile (env : Env) (request : Request) : List Event :=
  let username := request.form "username"
  let description := request.form "description"
  let configuration := request.form "configuration"
  let query := "username=" ++ queryEscape username ++ "&description=" ++ queryEscape description
  let url := env.controllerURL ++ APIPrefix ++ "client/profile?" ++ query
  let (result, trace) := tracedWriteRequest env url "POST" (some configuration)
  match result with
  | Except.error _ => trace ++ [Event.redirect "/profile-not-created" 301]
  | Except.ok _ => trace ++ [Event.redirect "/profile-created" 301]

/-- `storeConfiguration`. -/
def storeConfiguration (env : Env) (request : Request) : List Event :=
  let username := request.form "username"
  let cluster := request.form "cluster"
  let reason := request.form "reason"
  let description := request.form "description"
  let configuration := request.form "configuration"
  let query := "username=" ++ queryEscape username ++ "&reason=" ++ queryEscape reason ++
    "&description=" ++ queryEscape description
  let url := env.controllerURL ++ APIPrefix ++ "client/cluster/" ++ pathEscape cluster ++
    "/configuration?" ++ query
  let (result, trace) := tracedWriteRequest env url "POST" (some configuration)
  match result with
  | Except.error _ => trace ++ [Event.redirect "/configuration-not-created" 301]
  | Except.ok _ => trace ++ [Event.redirect "/configuration-created" 301]

/-- `enableConfiguration`. -/
def enableConfiguration (env : Env) (request : Request) : List Event :=
  match request.query "id" with
  | none => [Event.writeStatus 404, Event.writeBody "Not found!"]
  | some configurationID =>
      let url := env.controllerURL ++ APIPrefix ++ "client/configuration/" ++
        configurationID ++ "/enable"
      let (result, trace) := tracedWriteRequest env url "PUT" none
      match result with
      | Except.error _ => trace
      | Except.ok _ => trace ++ [Event.redirect "/list-configurations" 307]

/-- `disableConfiguration`. -/
def disableConfiguration (env : Env) (request : Request) : List Event :=
  match request.query "id" with
  | none => [Event.writeStatus 404, Event.writeBody "Not found!"]
  | some configurationID =>
      let url := env.controllerURL ++ APIPrefix ++ "client/configuration/" ++
        configurationID ++ "/disable"
      let (result, trace) := tracedWriteRequest env url "PUT" none
      match result with
      | Except.error _ => trace
      | Except.ok _ => trace ++ [Event.redirect "/list-configurations" 307]

/-- `activateTrigger`. -/
def activateTrigger (env : Env) (request : Request) : List Event :=
  match request.query "id" with
  | none => [Event.writeStatus 404, Event.writeBody "Not found!"]
  | some triggerID =>
      let url := env.controllerURL ++ APIPrefix ++ "client/trigger/" ++
        triggerID ++ "/activate"
      let (result, trace) := tracedWriteRequest env url "PUT" none
      match result with
      | Except.error _ => trace
      | Except.ok _ => trace ++ [Event.redirect "/list-triggers" 307]

/-- `deactivateTrigger`. -/
def deactivateTrigger (env : Env) (request : Request) : List Event :=
  match request.query "id" with
  | none => [Event.writeStatus 404, Event.writeBody "Not found!"]
  | some triggerID =>
      let url := env.controllerURL ++ APIPrefix ++ "client/trigger/" ++
        triggerID ++ "/deactivate"
      let (result, trace) := tracedWriteRequest env url "PUT" none
      match result with
      | Except.error _ => trace
      | Except.ok _ => trace ++ [Event.redirect "/list-triggers" 307]

/-- `triggerMustGatherConfiguration` (renders the must-gather form page;
requires a numeric `clusterID` and a `clusterName` query parameter). -/
def triggerMustGatherConfiguration (env : Env) (request : Request) : List Event :=
  match request.query "clusterID" with
  | none => [Event.writeStatus 404, Event.writeBody "Not found!"]
  | some clusterID =>
      match atoi clusterID with
      | none => [Event.writeStatus 404, Event.writeBody "Not found!"]
      | some id =>
          match request.query "clusterName" with
          | none => [Event.writeStatus 404, Event.writeBody "Not found!"]
          | some clusterName =>
              match env.templates "html/trigger_must_gather.html" with
              | none => [Event.writeStatus 404, Event.writeBody "Error parsing template"]
              | some render =>
                  [Event.writeBody (render (TemplateData.cluster { ID := id, Name := clusterName }))]

/-- `triggerMustGather` (POSTs the must-gather trigger to the REST API;
the `clusterid` form field is read and logged but never used in the
outbound request). -/
def triggerMustGather (env : Env) (request : Request) : List Event :=
  let _clusterID := request.form "clusterid"
  let clusterName := request.form "clustername"
  let username := request.form "username"
  let reason := request.form "reason"
  let link := request.form "link"
  let query := "username=" ++ queryEscape username ++ "&reason=" ++ queryEscape reason ++
    "&link=" ++ queryEscape link
  let url := env.controllerURL ++ APIPrefix ++ "client/cluster/" ++ pathEscape clusterName ++
    "/trigger/must-gather?" ++ query
  let (result, trace) := tracedWriteRequest env url "POST" none
  match result with
  | Except.error _ => trace ++ [Event.redirect "/trigger-not-created" 301]
  | Except.ok _ => trace ++ [Event.redirect "/trigger-created" 301]

/-- `getContentType` (suffix tests over the character sequence of the
filename, mirroring `strings.HasSuffix`). -/
def getContentType (filename : String) : String :=
  if List.isSuffixOf ".html".toList filename.toList then "text/html"
  else if List.isSuffixOf ".js".toList filename.toList then "application/javascript"
  else if List.isSuffixOf ".css".toList filename.toList then "text/css"
  else "text/html"

/-- `sendStaticPage`. -/
def sendStaticPage (env : Env) (filename : String) : List Event :=
  match env.files filename with
  | some body =>
      [Event.setHeader "Server" "A Go Web Server",
       Event.setHeader "Content-Type" (getContentType filename),
       Event.writeBody body]
  | none => [Event.writeStatus 404, Event.writeBody "Not found!"]

/-! ### Replaying a trace into the final observable response -/

/-- The outbound backend calls of a trace, in order. -/
def callsOf (trace : List Event) : List OutboundRequest :=
  trace.filterMap fun e =>
    match e with
    | Event.backendCall r => some r
    | _ => none

/-- The final value of a response header (last `Set` wins). -/
def headerValue (trace : List Event) (key : String) : Option String :=
  trace.foldl
    (fun acc e =>
      match e with
      | Event.setHeader k v => if k = key then some v else acc
      | _ => acc)
    none

/-- The explicit status written by the handler, if any. -/
def statusWritten (trace : List Event) : Option Nat :=
  trace.foldl
    (fun acc e =>
      match e with
      | Event.writeStatus code => some code
      | _ => acc)
    none

/-- The concatenated body written by the handler. -/
def bodyWritten (trace : List Event) : String :=
  trace.foldl
    (fun acc e =>
      match e with
      | Event.writeBody s => acc ++ s
      | _ => acc)
    ""

/-- The redirect issued by the handler, if any. -/
def redirectOf (trace : List Event) : Option (String × Nat) :=
  trace.foldl
    (fun acc e =>
      match e with
      | Event.redirect target code => some (target, code)
      | _ => acc)
    none

def isSetHeaderEvent : Event → Bool
  | Event.setHeader _ _ => true
  | _ => false

/-- Events that write to the response proper: an explicit status, body
text, or a redirect. -/
def isOutputEvent : Event → Bool
  | Event.writeStatus _ => true
  | Event.writeBody _ => true
  | Event.redirect _ _ => true
  | _ => false

/-- `headersFirst trace` holds when every header-set action precedes every
other action of the handler (backend calls included): the trace is a block
of `setHeader` events followed by events that set no header. -/
def headersFirst : List Event → Bool
  | [] => true
  | Event.setHeader _ _ :: rest => headersFirst rest
  | _ :: rest => rest.all fun e => !(isSetHeaderEvent e)

/-- `headersBeforeOutput trace` holds when every header-set action precedes
every status/body/redirect write (the condition under which `net/http`
actually transmits the headers). -/
def headersBeforeOutput : List Event → Bool
  | [] => true
  | e :: rest =>
      if isOutputEvent e then rest.all fun x => !(isSetHeaderEvent x)
      else headersBeforeOutput rest

end WebUI

namespace WebUI

/-- C2: `performWriteRequest` returns no error exactly when the backend's
response status is 200, 201 or 202; any other status yields the
unexpected-status error (carrying that status), a connection failure yields
the transport error, and on success no response body is consumed. -/
theorem C2_performWriteRequest_status_policy
    (backend : OutboundRequest → HttpResult) (url method : String)
    (payload : Option String) :
    (backend { url := url, method := method, body := payload } = HttpResult.failure →
      performWriteRequest backend url method payload =
        Except.error GatewayError.transportError) ∧
    (∀ statusCode body,
      backend { url := url, method := method, body := payload } =
          HttpResult.response statusCode body →
      (performWriteRequest backend url method payload = Except.ok () ↔
        statusCode = 200 ∨ statusCode = 201 ∨ statusCode = 202) ∧
      (¬(statusCode = 200 ∨ statusCode = 201 ∨ statusCode = 202) →
        performWriteRequest backend url method payload =
          Except.error (GatewayError.unexpectedStatus statusCode))) := by
  constructor
  · intro h
    simp only [performWriteRequest, h]
  · intro statusCode body h
    constructor
    · constructor
      · intro hok
        by_contra hno
        push_neg at hno
        simp only [performWriteRequest, h, if_pos hno] at hok
        exact Except.noConfusion hok
      · intro hs
        have hcond : ¬(statusCode ≠ 200 ∧ statusCode ≠ 201 ∧ statusCode ≠ 202) := by
          rcases hs with h1 | h1 | h1 <;> simp [h1]
        simp only [performWriteRequest, h, if_neg hcond]
    · intro hs
      push_neg at hs
      simp only [performWriteRequest, h, if_pos hs]

/-- Witness for C2 at concrete inputs: a 500 response is rejected with the
unexpected-status error. -/
theorem C2_performWriteRequest_status_policy_witness :
    performWriteRequest (fun _ => HttpResult.response 500 "oops") "http://c/api/v1/x"
      "POST" none = Except.error (GatewayError.unexpectedStatus 500) :=
  ((C2_performWriteRequest_status_policy (fun _ => HttpResult.response 500 "oops")
      "http://c/api/v1/x" "POST" none).2 500 "oops" rfl).2 (by decide)

/-- C3: `performReadRequest` fails with the unexpected-status error (not
the transport error) for every response status other than 200, fails with
the transport error on connection failure, and on a 200 response returns
the raw response body unmodified. -/
theorem C3_performReadRequest_status_policy
    (backend : OutboundRequest → HttpResult) (url : String) :
    (backend { url := url, method := "GET", body := none } = HttpResult.failure →
      performReadRequest backend url = Except.error GatewayError.transportError) ∧
    (∀ statusCode body,
      backend { url := url, method := "GET", body := none } =
          HttpResult.response statusCode body →
      (statusCode ≠ 200 →
        performReadRequest backend url =
          Except.error (GatewayError.unexpectedStatus statusCode)) ∧
      (statusCode = 200 → performReadRequest backend url = Except.ok body)) := by
  constructor
  · intro h
    simp only [performReadRequest, h]
  · intro statusCode body h
    constructor
    · intro hne
      simp only [performReadRequest, h, if_pos hne]
    · intro heq
      subst heq
      simp [performReadRequest, h]

/-- Witness for C3 at concrete inputs: a 404 response yields the
unexpected-status error, not the transport error. -/
theorem C3_performReadRequest_status_policy_witness :
    performReadRequest (fun _ => HttpResult.response 404 "") "http://c/api/v1/x" =
      Except.error (GatewayError.unexpectedStatus 404) :=
  ((C3_performReadRequest_status_policy (fun _ => HttpResult.response 404 "")
      "http://c/api/v1/x").2 404 "" rfl).1 (by decide)

/-- C9: for each of the four entity types, decoding is a left inverse of
encoding — every record round-trips through its JSON representation with
all fields preserved. -/
theorem C9_json_round_trip :
    (∀ c : Cluster, decodeCluster (encodeCluster c) = some c) ∧
    (∀ p : ConfigurationProfile,
      decodeConfigurationProfile (encodeConfigurationProfile p) = some p) ∧
    (∀ c : ClusterConfiguration,
      decodeClusterConfiguration (encodeClusterConfiguration c) = some c) ∧
    (∀ t : Trigger, decodeTrigger (encodeTrigger t) = some t) :=
  ⟨fun _ => rfl, fun _ => rfl, fun _ => rfl, fun _ => rfl⟩

/-- Two suffixes of the same list are suffixes of one another; `".html"`
and `".js"` are not, so no filename has both. -/
theorem not_html_suffix_of_js_suffix {l : List Char}
    (h : List.isSuffixOf ".js".toList l = true) :
    List.isSuffixOf ".html".toList l = false := by
  rw [List.isSuffixOf_iff_suffix] at h
  rw [Bool.eq_false_iff, ne_eq, List.isSuffixOf_iff_suffix]
  intro h2
  rcases List.suffix_or_suffix_of_suffix h h2 with h3 | h3
  · exact absurd h3 (by decide)
  · exact absurd h3 (by decide)

/-- No filename ends in both `".css"` and `".html"`. -/
theorem not_html_suffix_of_css_suffix {l : List Char}
    (h : List.isSuffixOf ".css".toList l = true) :
    List.isSuffixOf ".html".toList l = false := by
  rw [List.isSuffixOf_iff_suffix] at h
  rw [Bool.eq_false_iff, ne_eq, List.isSuffixOf_iff_suffix]
  intro h2
  rcases List.suffix_or_suffix_of_suffix h h2 with h3 | h3
  · exact absurd h3 (by decide)
  · exact absurd h3 (by decide)

/-- No filename ends in both `".css"` and `".js"`. -/
theorem not_js_suffix_of_css_suffix {l : List Char}
    (h : List.isSuffixOf ".css".toList l = true) :
    List.isSuffixOf ".js".toList l = false := by
  rw [List.isSuffixOf_iff_suffix] at h
  rw [Bool.eq_false_iff, ne_eq, List.isSuffixOf_iff_suffix]
  intro h2
  rcases List.suffix_or_suffix_of_suffix h h2 with h3 | h3
  · exact absurd h3 (by decide)
  · exact absurd h3 (by decide)

/-- C8: the static file handler answers 404 with body `"Not found!"` when
the file cannot be read; otherwise it serves the file content verbatim
with the fixed `Server` header and a `Content-Type` chosen by filename
extension — `.html` → `text/html`, `.js` → `application/javascript`,
`.css` → `text/css`, anything else `text/html`. -/
theorem C8_static_file_handler (env : Env) (filename : String) :
    (env.files filename = none →
      sendStaticPage env filename =
        [Event.writeStatus 404, Event.writeBody "Not found!"]) ∧
    (∀ content, env.files filename = some content →
      bodyWritten (sendStaticPage env filename) = content ∧
      headerValue (sendStaticPage env filename) "Server" = some "A Go Web Server" ∧
      headerValue (sendStaticPage env filename) "Content-Type" =
        some (getContentType filename) ∧
      statusWritten (sendStaticPage env filename) = none) ∧
    (List.isSuffixOf ".html".toList filename.toList = true →
      getContentType filename = "text/html") ∧
    (List.isSuffixOf ".js".toList filename.toList = true →
      getContentType filename = "application/javascript") ∧
    (List.isSuffixOf ".css".toList filename.toList = true →
      getContentType filename = "text/css") ∧
    (List.isSuffixOf ".html".toList filename.toList = false →
      List.isSuffixOf ".js".toList filename.toList = false →
      List.isSuffixOf ".css".toList filename.toList = false →
      getContentType filename = "text/html") := by
  refine ⟨?_, ?_, ?_, ?_, ?_, ?_⟩
  · intro h
    simp only [sendStaticPage, h]
  · intro content h
    refine ⟨?_, ?_, ?_, ?_⟩ <;>
      simp [sendStaticPage, h, bodyWritten, headerValue, statusWritten]
  · intro h
    simp only [getContentType, h, if_true]
  · intro h
    simp only [getContentType, not_html_suffix_of_js_suffix h, h,
      Bool.false_eq_true, if_false, if_true]
  · intro h
    simp only [getContentType, not_html_suffix_of_css_suffix h,
      not_js_suffix_of_css_suffix h, h, Bool.false_eq_true, if_false, if_true]
  · intro h1 h2 h3
    simp only [getContentType, h1, h2, h3, Bool.false_eq_true, if_false]

/-- Witness for C8 at concrete inputs: an unreadable file yields the 404
response, and a readable `.js` file is served with its content and the
javascript content type. -/
theorem C8_static_file_handler_witness :
    (sendStaticPage
        { controllerURL := "", backend := fun _ => HttpResult.failure,
          files := fun _ => none, templates := fun _ => none,
          parseJson := fun _ => none } "html/index.html" =
      [Event.writeStatus 404, Event.writeBody "Not found!"]) ∧
    getContentType "bootstrap.min.js" = "application/javascript" := by
  constructor
  · exact (C8_static_file_handler
      { controllerURL := "", backend := fun _ => HttpResult.failure,
        files := fun _ => none, templates := fun _ => none,
        parseJson := fun _ => none } "html/index.html").1 rfl
  · exact (C8_static_file_handler
      { controllerURL := "", backend := fun _ => HttpResult.failure,
        files := fun _ => none, templates := fun _ => none,
        parseJson := fun _ => none } "bootstrap.min.js").2.2.2.1 (by decide)

/-- C10: the outbound request and the whole observable behaviour of
`/trigger-must-gather` are independent of the `clusterid` form field — two
submissions agreeing on `clustername`, `username`, `reason` and `link`
produce identical event traces (same POST, same redirect), whatever their
`clusterid` fields are. -/
theorem C10_must_gather_independent_of_clusterid (env : Env) (r1 r2 : Request)
    (hname : r1.form "clustername" = r2.form "clustername")
    (huser : r1.form "username" = r2.form "username")
    (hreason : r1.form "reason" = r2.form "reason")
    (hlink : r1.form "link" = r2.form "link") :
    triggerMustGather env r1 = triggerMustGather env r2 := by
  simp only [triggerMustGather, hname, huser, hreason, hlink]

/-- Witness for C10 at concrete inputs: two forms that differ only in
`clusterid` lead to the same trace. -/
theorem C10_must_gather_independent_of_clusterid_witness :
    triggerMustGather
      { controllerURL := "http://c", backend := fun _ => HttpResult.response 200 "",
        files := fun _ => none, templates := fun _ => none, parseJson := fun _ => none }
      { query := fun _ => none,
        form := fun k => if k = "clusterid" then "1" else "v" } =
    triggerMustGather
      { controllerURL := "http://c", backend := fun _ => HttpResult.response 200 "",
        files := fun _ => none, templates := fun _ => none, parseJson := fun _ => none }
      { query := fun _ => none,
        form := fun k => if k = "clusterid" then "2" else "v" } :=
  C10_must_gather_independent_of_clusterid _ _ _ rfl rfl rfl rfl

/-- Merging two adjacent string literals inside a concatenation. -/
theorem string_append_merge (a b ab x : String) (hab : a ++ b = ab) :
    a ++ (b ++ x) = ab ++ x := by
  rw [← String.append_assoc, hab]

/-- `callsOf` distributes over trace concatenation. -/
theorem callsOf_append (a b : List Event) :
    callsOf (a ++ b) = callsOf a ++ callsOf b :=
  List.filterMap_append a b _

/-- Rendering a template performs no backend call. -/
theorem callsOf_renderTemplate (env : Env) (filename : String) (dynData : TemplateData) :
    callsOf (renderTemplate env filename dynData) = [] := by
  unfold renderTemplate
  split <;> rfl

/-- The URL `storeProfile` builds (base, prefix, path and query assembled
in the code's grouping) equals the claim's single concatenation. -/
theorem storeProfile_url (c u d : String) :
    c ++ APIPrefix ++ "client/profile?" ++
      ("username=" ++ queryEscape u ++ "&description=" ++ queryEscape d) =
    c ++ "/api/v1/" ++ "client/profile?username=" ++ queryEscape u ++
      "&description=" ++ queryEscape d := by
  simp only [APIPrefix, String.append_assoc]
  exact congrArg (fun x => c ++ ("/api/v1/" ++ x))
    (string_append_merge "client/profile?" "username=" "client/profile?username="
      (queryEscape u ++ ("&description=" ++ queryEscape d)) (by rfl))

/-- C1: `/store-profile` POSTs the `configuration` form field as the raw
request body to
`controllerURL ++ "/api/v1/" ++ "client/profile?username=" ++ queryEscape username ++ "&description=" ++ queryEscape description`;
a backend status of 200, 201 or 202 redirects (301) to `/profile-created`,
and a connection failure or any other status redirects (301) to
`/profile-not-created`. -/
theorem C1_store_profile (env : Env) (request : Request) :
    callsOf (storeProfile env request) =
      [{ url := env.controllerURL ++ "/api/v1/" ++ "client/profile?username=" ++
           queryEscape (request.form "username") ++ "&description=" ++
           queryEscape (request.form "description"),
         method := "POST", body := some (request.form "configuration") }] ∧
    (∀ statusCode body,
      env.backend
          { url := env.controllerURL ++ "/api/v1/" ++ "client/profile?username=" ++
              queryEscape (request.form "username") ++ "&description=" ++
              queryEscape (request.form "description"),
            method := "POST", body := some (request.form "configuration") } =
          HttpResult.response statusCode body →
      ((statusCode = 200 ∨ statusCode = 201 ∨ statusCode = 202) →
        redirectOf (storeProfile env request) = some ("/profile-created", 301)) ∧
      (¬(statusCode = 200 ∨ statusCode = 201 ∨ statusCode = 202) →
        redirectOf (storeProfile env request) = some ("/profile-not-created", 301))) ∧
    (env.backend
          { url := env.controllerURL ++ "/api/v1/" ++ "client/profile?username=" ++
              queryEscape (request.form "username") ++ "&description=" ++
              queryEscape (request.form "description"),
            method := "POST", body := some (request.form "configuration") } =
        HttpResult.failure →
      redirectOf (storeProfile env request) = some ("/profile-not-created", 301)) := by
  have hurl := storeProfile_url env.controllerURL (request.form "username")
    (request.form "description")
  refine ⟨?_, ?_, ?_⟩
  · simp only [storeProfile, tracedWriteRequest, hurl]
    split <;> rfl
  · intro statusCode body h
    constructor
    · intro hs
      have hcond : ¬(statusCode ≠ 200 ∧ statusCode ≠ 201 ∧ statusCode ≠ 202) := by
        rcases hs with h1 | h1 | h1 <;> simp [h1]
      simp only [storeProfile, tracedWriteRequest, performWriteRequest, hurl, h,
        if_neg hcond]
      rfl
    · intro hs
      push_neg at hs
      simp only [storeProfile, tracedWriteRequest, performWriteRequest, hurl, h,
        if_pos hs]
      rfl
  · intro h
    simp only [storeProfile, tracedWriteRequest, performWriteRequest, hurl, h]
    rfl

/-- Witness for C1 at concrete inputs: against a backend answering 201 the
handler redirects to `/profile-created`, and the hypotheses of the theorem
are satisfiable. -/
theorem C1_store_profile_witness :
    redirectOf (storeProfile
      { controllerURL := "http://c", backend := fun _ => HttpResult.response 201 "",
        files := fun _ => none, templates := fun _ => none, parseJson := fun _ => none }
      { query := fun _ => none, form := fun _ => "x" }) =
      some ("/profile-created", 301) :=
  ((C1_store_profile
      { controllerURL := "http://c", backend := fun _ => HttpResult.response 201 "",
        files := fun _ => none, templates := fun _ => none, parseJson := fun _ => none }
      { query := fun _ => none, form := fun _ => "x" }).2.1 201 "" rfl).1
    (Or.inr (Or.inl rfl))

/-- C5: the triggers list handler issues the all-triggers backend call
(`controllerURL ++ "/api/v1/" ++ "client/trigger"`) when no `clusterName`
query parameter is supplied, and the per-cluster call
(`controllerURL ++ "/api/v1/" ++ "client/cluster/" ++ name ++ "/trigger"`)
when `clusterName=name` is supplied. -/
theorem C5_list_triggers_branching (env : Env) (request : Request) :
    (request.query "clusterName" = none →
      callsOf (listTriggers env request) =
        [{ url := env.controllerURL ++ "/api/v1/" ++ "client/trigger",
           method := "GET", body := none }]) ∧
    (∀ name, request.query "clusterName" = some name →
      callsOf (listTriggers env request) =
        [{ url := env.controllerURL ++ "/api/v1/" ++ "client/cluster/" ++ name ++ "/trigger",
           method := "GET", body := none }]) := by
  constructor
  · intro h
    simp only [listTriggers, h, readListOfAllTriggers, tracedReadRequest]
    repeat' split
    all_goals simp only [callsOf_append, callsOf_renderTemplate]
    all_goals rfl
  · intro name h
    simp only [listTriggers, h, readListOfTriggers, tracedReadRequest]
    repeat' split
    all_goals simp only [callsOf_append, callsOf_renderTemplate]
    all_goals rfl

/-- Witness for C5 at concrete inputs: without `clusterName` the all-triggers
endpoint is called; with `clusterName=foo` the per-cluster endpoint is. -/
theorem C5_list_triggers_branching_witness :
    callsOf (listTriggers
      { controllerURL := "http://c", backend := fun _ => HttpResult.failure,
        files := fun _ => none, templates := fun _ => none, parseJson := fun _ => none }
      { query := fun _ => none, form := fun _ => "" }) =
      [{ url := "http://c" ++ "/api/v1/" ++ "client/trigger",
         method := "GET", body := none }] ∧
    callsOf (listTriggers
      { controllerURL := "http://c", backend := fun _ => HttpResult.failure,
        files := fun _ => none, templates := fun _ => none, parseJson := fun _ => none }
      { query := fun k => if k = "clusterName" then some "foo" else none,
        form := fun _ => "" }) =
      [{ url := "http://c" ++ "/api/v1/" ++ "client/cluster/" ++ "foo" ++ "/trigger",
         method := "GET", body := none }] :=
  ⟨(C5_list_triggers_branching
      { controllerURL := "http://c", backend := fun _ => HttpResult.failure,
        files := fun _ => none, templates := fun _ => none, parseJson := fun _ => none }
      { query := fun _ => none, form := fun _ => "" }).1 rfl,
   (C5_list_triggers_branching
      { controllerURL := "http://c", backend := fun _ => HttpResult.failure,
        files := fun _ => none, templates := fun _ => none, parseJson := fun _ => none }
      { query := fun k => if k = "clusterName" then some "foo" else none,
        form := fun _ => "" }).2 "foo" rfl⟩

/-- C4: each handler with a required query parameter answers a request
missing that parameter with status 404, body `"Not found!"`, and makes no
backend call: `describe-configuration` requires `configuration`, the four
toggle handlers require `id`, and
`trigger-must-gather-configuration` requires `clusterID` and `clusterName`. -/
theorem C4_missing_parameter_404 (env : Env) (request : Request) :
    (request.query "configuration" = none →
      statusWritten (describeConfiguration env request) = some 404 ∧
      bodyWritten (describeConfiguration env request) = "Not found!" ∧
      callsOf (describeConfiguration env request) = []) ∧
    (request.query "id" = none →
      (statusWritten (enableConfiguration env request) = some 404 ∧
       bodyWritten (enableConfiguration env request) = "Not found!" ∧
       callsOf (enableConfiguration env request) = []) ∧
      (statusWritten (disableConfiguration env request) = some 404 ∧
       bodyWritten (disableConfiguration env request) = "Not found!" ∧
       callsOf (disableConfiguration env request) = []) ∧
      (statusWritten (activateTrigger env request) = some 404 ∧
       bodyWritten (activateTrigger env request) = "Not found!" ∧
       callsOf (activateTrigger env request) = []) ∧
      (statusWritten (deactivateTrigger env request) = some 404 ∧
       bodyWritten (deactivateTrigger env request) = "Not found!" ∧
       callsOf (deactivateTrigger env request) = [])) ∧
    (request.query "clusterID" = none →
      statusWritten (triggerMustGatherConfiguration env request) = some 404 ∧
      bodyWritten (triggerMustGatherConfiguration env request) = "Not found!" ∧
      callsOf (triggerMustGatherConfiguration env request) = []) ∧
    (request.query "clusterName" = none →
      statusWritten (triggerMustGatherConfiguration env request) = some 404 ∧
      bodyWritten (triggerMustGatherConfiguration env request) = "Not found!" ∧
      callsOf (triggerMustGatherConfiguration env request) = []) := by
  refine ⟨?_, ?_, ?_, ?_⟩
  · intro h
    simp only [describeConfiguration, h]
    exact ⟨rfl, rfl, rfl⟩
  · intro h
    refine ⟨?_, ?_, ?_, ?_⟩
    · simp only [enableConfiguration, h]
      exact ⟨rfl, rfl, rfl⟩
    · simp only [disableConfiguration, h]
      exact ⟨rfl, rfl, rfl⟩
    · simp only [activateTrigger, h]
      exact ⟨rfl, rfl, rfl⟩
    · simp only [deactivateTrigger, h]
      exact ⟨rfl, rfl, rfl⟩
  · intro h
    simp only [triggerMustGatherConfiguration, h]
    exact ⟨rfl, rfl, rfl⟩
  · intro h
    cases hcid : request.query "clusterID" with
    | none =>
        simp only [triggerMustGatherConfiguration, hcid]
        exact ⟨rfl, rfl, rfl⟩
    | some cid =>
        cases hat : atoi cid with
        | none =>
            simp only [triggerMustGatherConfiguration, hcid, hat]
            exact ⟨rfl, rfl, rfl⟩
        | some idv =>
            simp only [triggerMustGatherConfiguration, hcid, hat, h]
            exact ⟨rfl, rfl, rfl⟩

/-- Witness for C4 at concrete inputs: a request with no query parameters
gets the 404 response with no backend call from each required-parameter
handler. -/
theorem C4_missing_parameter_404_witness :
    (statusWritten (describeConfiguration
        { controllerURL := "http://c", backend := fun _ => HttpResult.failure,
          files := fun _ => none, templates := fun _ => none, parseJson := fun _ => none }
        { query := fun _ => none, form := fun _ => "" }) = some 404 ∧
      bodyWritten (describeConfiguration
        { controllerURL := "http://c", backend := fun _ => HttpResult.failure,
          files := fun _ => none, templates := fun _ => none, parseJson := fun _ => none }
        { query := fun _ => none, form := fun _ => "" }) = "Not found!" ∧
      callsOf (describeConfiguration
        { controllerURL := "http://c", backend := fun _ => HttpResult.failure,
          files := fun _ => none, templates := fun _ => none, parseJson := fun _ => none }
        { query := fun _ => none, form := fun _ => "" }) = []) ∧
    callsOf (enableConfiguration
        { controllerURL := "http://c", backend := fun _ => HttpResult.failure,
          files := fun _ => none, templates := fun _ => none, parseJson := fun _ => none }
        { query := fun _ => none, form := fun _ => "" }) = [] ∧
    callsOf (triggerMustGatherConfiguration
        { controllerURL := "http://c", backend := fun _ => HttpResult.failure,
          files := fun _ => none, templates := fun _ => none, parseJson := fun _ => none }
        { query := fun _ => none, form := fun _ => "" }) = [] :=
  ⟨(C4_missing_parameter_404
      { controllerURL := "http://c", backend := fun _ => HttpResult.failure,
        files := fun _ => none, templates := fun _ => none, parseJson := fun _ => none }
      { query := fun _ => none, form := fun _ => "" }).1 rfl,
   ((C4_missing_parameter_404
      { controllerURL := "http://c", backend := fun _ => HttpResult.failure,
        files := fun _ => none, templates := fun _ => none, parseJson := fun _ => none }
      { query := fun _ => none, form := fun _ => "" }).2.1 rfl).1.2.2,
   ((C4_missing_parameter_404
      { controllerURL := "http://c", backend := fun _ => HttpResult.failure,
        files := fun _ => none, templates := fun _ => none, parseJson := fun _ => none }
      { query := fun _ => none, form := fun _ => "" }).2.2.1 rfl).2.2⟩

/-- C6: given an `id` query parameter, each toggle handler PUTs (with nil
body) to its backend path; on gateway success it redirects with 307 to the
relevant list page, and on gateway failure it writes neither a redirect
nor an explicit status nor a body. -/
theorem C6_toggle_handlers (env : Env) (request : Request) (id : String)
    (h : request.query "id" = some id) :
    (callsOf (enableConfiguration env request) =
      [{ url := env.controllerURL ++ "/api/v1/" ++ "client/configuration/" ++ id ++ "/enable",
         method := "PUT", body := none }] ∧
     (performWriteRequest env.backend
        (env.controllerURL ++ "/api/v1/" ++ "client/configuration/" ++ id ++ "/enable")
        "PUT" none = Except.ok () →
       redirectOf (enableConfiguration env request) = some ("/list-configurations", 307)) ∧
     (∀ e, performWriteRequest env.backend
        (env.controllerURL ++ "/api/v1/" ++ "client/configuration/" ++ id ++ "/enable")
        "PUT" none = Except.error e →
       redirectOf (enableConfiguration env request) = none ∧
       statusWritten (enableConfiguration env request) = none ∧
       bodyWritten (enableConfiguration env request) = "")) ∧
    (callsOf (disableConfiguration env request) =
      [{ url := env.controllerURL ++ "/api/v1/" ++ "client/configuration/" ++ id ++ "/disable",
         method := "PUT", body := none }] ∧
     (performWriteRequest env.backend
        (env.controllerURL ++ "/api/v1/" ++ "client/configuration/" ++ id ++ "/disable")
        "PUT" none = Except.ok () →
       redirectOf (disableConfiguration env request) = some ("/list-configurations", 307)) ∧
     (∀ e, performWriteRequest env.backend
        (env.controllerURL ++ "/api/v1/" ++ "client/configuration/" ++ id ++ "/disable")
        "PUT" none = Except.error e →
       redirectOf (disableConfiguration env request) = none ∧
       statusWritten (disableConfiguration env request) = none ∧
       bodyWritten (disableConfiguration env request) = "")) ∧
    (callsOf (activateTrigger env request) =
      [{ url := env.controllerURL ++ "/api/v1/" ++ "client/trigger/" ++ id ++ "/activate",
         method := "PUT", body := none }] ∧
     (performWriteRequest env.backend
        (env.controllerURL ++ "/api/v1/" ++ "client/trigger/" ++ id ++ "/activate")
        "PUT" none = Except.ok () →
       redirectOf (activateTrigger env request) = some ("/list-triggers", 307)) ∧
     (∀ e, performWriteRequest env.backend
        (env.controllerURL ++ "/api/v1/" ++ "client/trigger/" ++ id ++ "/activate")
        "PUT" none = Except.error e →
       redirectOf (activateTrigger env request) = none ∧
       statusWritten (activateTrigger env request) = none ∧
       bodyWritten (activateTrigger env request) = "")) ∧
    (callsOf (deactivateTrigger env request) =
      [{ url := env.controllerURL ++ "/api/v1/" ++ "client/trigger/" ++ id ++ "/deactivate",
         method := "PUT", body := none }] ∧
     (performWriteRequest env.backend
        (env.controllerURL ++ "/api/v1/" ++ "client/trigger/" ++ id ++ "/deactivate")
        "PUT" none = Except.ok () →
       redirectOf (deactivateTrigger env request) = some ("/list-triggers", 307)) ∧
     (∀ e, performWriteRequest env.backend
        (env.controllerURL ++ "/api/v1/" ++ "client/trigger/" ++ id ++ "/deactivate")
        "PUT" none = Except.error e →
       redirectOf (deactivateTrigger env request) = none ∧
       statusWritten (deactivateTrigger env request) = none ∧
       bodyWritten (deactivateTrigger env request) = "")) := by
  refine ⟨⟨?_, ?_, ?_⟩, ⟨?_, ?_, ?_⟩, ⟨?_, ?_, ?_⟩, ⟨?_, ?_, ?_⟩⟩
  · simp only [enableConfiguration, h, tracedWriteRequest, APIPrefix]
    split <;> rfl
  · intro hok
    simp only [enableConfiguration, h, tracedWriteRequest, APIPrefix, hok]
    rfl
  · intro e he
    simp only [enableConfiguration, h, tracedWriteRequest, APIPrefix, he]
    exact ⟨rfl, rfl, rfl⟩
  · simp only [disableConfiguration, h, tracedWriteRequest, APIPrefix]
    split <;> rfl
  · intro hok
    simp only [disableConfiguration, h, tracedWriteRequest, APIPrefix, hok]
    rfl
  · intro e he
    simp only [disableConfiguration, h, tracedWriteRequest, APIPrefix, he]
    exact ⟨rfl, rfl, rfl⟩
  · simp only [activateTrigger, h, tracedWriteRequest, APIPrefix]
    split <;> rfl
  · intro hok
    simp only [activateTrigger, h, tracedWriteRequest, APIPrefix, hok]
    rfl
  · intro e he
    simp only [activateTrigger, h, tracedWriteRequest, APIPrefix, he]
    exact ⟨rfl, rfl, rfl⟩
  · simp only [deactivateTrigger, h, tracedWriteRequest, APIPrefix]
    split <;> rfl
  · intro hok
    simp only [deactivateTrigger, h, tracedWriteRequest, APIPrefix, hok]
    rfl
  · intro e he
    simp only [deactivateTrigger, h, tracedWriteRequest, APIPrefix, he]
    exact ⟨rfl, rfl, rfl⟩

/-- Witness for C6 at concrete inputs: with `id=42`, a 200 backend answer
makes `enable-configuration` redirect 307 to `/list-configurations`, and
with a failing backend `activate-trigger` writes no redirect. -/
theorem C6_toggle_handlers_witness :
    redirectOf (enableConfiguration
      { controllerURL := "http://c", backend := fun _ => HttpResult.response 200 "",
        files := fun _ => none, templates := fun _ => none, parseJson := fun _ => none }
      { query := fun k => if k = "id" then some "42" else none, form := fun _ => "" }) =
      some ("/list-configurations", 307) ∧
    redirectOf (activateTrigger
      { controllerURL := "http://c", backend := fun _ => HttpResult.failure,
        files := fun _ => none, templates := fun _ => none, parseJson := fun _ => none }
      { query := fun k => if k = "id" then some "42" else none, form := fun _ => "" }) =
      none :=
  ⟨(C6_toggle_handlers
      { controllerURL := "http://c", backend := fun _ => HttpResult.response 200 "",
        files := fun _ => none, templates := fun _ => none, parseJson := fun _ => none }
      { query := fun k => if k = "id" then some "42" else none, form := fun _ => "" }
      "42" rfl).1.2.1 rfl,
   ((C6_toggle_handlers
      { controllerURL := "http://c", backend := fun _ => HttpResult.failure,
        files := fun _ => none, templates := fun _ => none, parseJson := fun _ => none }
      { query := fun k => if k = "id" then some "42" else none, form := fun _ => "" }
      "42" rfl).2.2.1.2.2 GatewayError.transportError rfl).1⟩

/-- C7 counterexample: the cache-busting headers are NOT set before
anything else in the handler — with a failing backend,
`listConfigurations` performs its backend call first and only then sets
the headers, so at this concrete input the header-set events do not
precede all other events. -/
theorem C7_noCache_headers_not_first :
    headersFirst (listConfigurations
      { controllerURL := "http://c", backend := fun _ => HttpResult.failure,
        files := fun _ => none, templates := fun _ => none, parseJson := fun _ => none }
      { query := fun _ => none, form := fun _ => "" }) = false := by
  rfl

/-- C7 (amended): `listConfigurations` and `listTriggers` set the fixed
cache-busting headers (`Expires` at the epoch in RFC 1123 form,
`Cache-Control: no-cache, private, max-age=0`, `Pragma: no-cache`,
`X-Accel-Expires: 0`) after the backend read but before any status or body
is written, and the four headers are present in the final response state of
every request, on success and on failure alike. -/
theorem C7_noCache_headers_amended (env : Env) (request : Request) :
    (headerValue (listConfigurations env request) "Expires" = some epoch ∧
     headerValue (listConfigurations env request) "Cache-Control" =
       some "no-cache, private, max-age=0" ∧
     headerValue (listConfigurations env request) "Pragma" = some "no-cache" ∧
     headerValue (listConfigurations env request) "X-Accel-Expires" = some "0" ∧
     headersBeforeOutput (listConfigurations env request) = true) ∧
    (headerValue (listTriggers env request) "Expires" = some epoch ∧
     headerValue (listTriggers env request) "Cache-Control" =
       some "no-cache, private, max-age=0" ∧
     headerValue (listTriggers env request) "Pragma" = some "no-cache" ∧
     headerValue (listTriggers env request) "X-Accel-Expires" = some "0" ∧
     headersBeforeOutput (listTriggers env request) = true) := by
  constructor
  · refine ⟨?_, ?_, ?_, ?_, ?_⟩ <;>
      · simp only [listConfigurations, readListOfConfigurations, tracedReadRequest,
          renderTemplate]
        repeat' split
        all_goals rfl
  · refine ⟨?_, ?_, ?_, ?_, ?_⟩ <;>
      · simp only [listTriggers, readListOfAllTriggers, readListOfTriggers,
          tracedReadRequest, renderTemplate]
        repeat' split
        all_goals rfl

end WebUI
